import Mathlib

/-!
# docusaurus-crypto-docs: the site configuration and the Highlight component

A shallow embedding of `docusaurus.config.js` and of
`src/components/Highlight/index.js`.

JavaScript objects are kept as insertion-ordered association lists with string
keys.  Object literals, the spread of an object into a literal and the rest
element of a destructuring pattern are evaluated the way the language
specification defines them (`CreateDataProperty`, `CopyDataProperties`), so a
key written twice in one literal keeps its first position and its last value.
-/

namespace DocusaurusCryptoDocs

/-! ## Values -/

/-- JavaScript values occurring in the configuration.  A value `imported s p`
is what an imported or required module `s` provides under the member path `p`;
nothing is known about it but its origin. -/
inductive Value where
  | undefined
  | bool (b : Bool)
  | str (s : String)
  | imported (source : String) (member : List String)
  | arr (items : List Value)
  | obj (fields : List (String × Value))

/-- An object: its own enumerable string-keyed properties in insertion order. -/
abbrev Obj := List (String × Value)

/-- The element list of an array value; other values have none. -/
def Value.items : Value → List Value
  | .arr xs => xs
  | _ => []

/-- The property list of an object value; other values have none. -/
def Value.fields : Value → Obj
  | .obj o => o
  | _ => []

/-- Indexed read `a[i]` on an array value: `undefined` outside the array. -/
def Value.item (v : Value) (i : Nat) : Value :=
  v.items.getD i .undefined

/-! ## Objects -/

/-- The own property keys of the object, in order (`OwnPropertyKeys`). -/
def Obj.keys (o : Obj) : List String :=
  o.map Prod.fst

/-- Own-property lookup: `none` when the object does not define the key. -/
def Obj.get : Obj → String → Option Value
  | [], _ => none
  | (k', v) :: rest, k => if k' = k then some v else Obj.get rest k

/-- Property read `o.k` (`Get`): an undefined key reads as `undefined`. -/
def Obj.read (o : Obj) (k : String) : Value :=
  (o.get k).getD .undefined

/-- Define the property (`CreateDataProperty`): an existing key keeps its place and
takes the new value, a new key goes to the end. -/
def Obj.set : Obj → String → Value → Obj
  | [], k, v => [(k, v)]
  | (k', v') :: rest, k, v =>
    if k' = k then (k', v) :: rest else (k', v') :: Obj.set rest k v

/-- Copy the own properties of `source` onto `target`, leaving out the excluded
keys (`CopyDataProperties`): each own key of the source, in order, is read from the
source and defined on the target. -/
def copyDataProperties (target source : Obj) (excluded : List String) : Obj :=
  (source.keys.filter (fun k => decide (k ∉ excluded))).foldl
    (fun acc k => acc.set k (source.read k)) target

/-- A member of an object literal: `k: v`, or the spread `...o` of an object. -/
inductive Member where
  | prop (k : String) (v : Value)
  | spread (o : Obj)

/-- Evaluate an object literal: its members are applied left to right to an
initially empty object. -/
def literal (members : List Member) : Obj :=
  members.foldl
    (fun acc m =>
      match m with
      | .prop k v => acc.set k v
      | .spread o => copyDataProperties acc o [])
    []

/-- The rest element `...rest` of an object destructuring pattern whose named
properties are `named`: a fresh object with the remaining own properties. -/
def restOf (source : Obj) (named : List String) : Obj :=
  copyDataProperties [] source named

/-! ## The host environment -/

/-- What the configuration takes from the process it is loaded in: Node's
`require.resolve` (module request to absolute file name) and the year that
`new Date().getFullYear()` gives at load time. -/
structure Host where
  resolve : String → String
  fullYear : Nat

/-! ## docusaurus.config.js -/

/-- The binding `remarkMath` (default export of `remark-math`). -/
def remarkMath : Value := .imported "remark-math" ["default"]

/-- The binding `rehypeKatex` (default export of `rehype-katex`). -/
def rehypeKatex : Value := .imported "rehype-katex" ["default"]

/-- The value of `require('@docusaurus/remark-plugin-npm2yarn')`. -/
def npm2yarn : Value := .imported "@docusaurus/remark-plugin-npm2yarn" []

/-- The binding `prismThemes` (export `themes` of `prism-react-renderer`), at a
member. -/
def prismThemes (member : String) : Value :=
  .imported "prism-react-renderer" ["themes", member]

/-- The object literal `defaultSettings`; `remarkPlugins` is written twice. -/
def defaultSettings (host : Host) : Obj :=
  literal [
    .prop "breadcrumbs" (.bool true),
    .prop "editUrl" (.str "https://github.com/dyte-io/docs/tree/main/"),
    .prop "showLastUpdateTime" (.bool true),
    .prop "sidebarCollapsible" (.bool true),
    .prop "remarkPlugins"
      (.arr [.arr [npm2yarn, .obj (literal [.prop "sync" (.bool true)])]]),
    .prop "sidebarPath" (.str (host.resolve "./sidebars-default.js")),
    .prop "remarkPlugins" (.arr [remarkMath]),
    .prop "rehypePlugins" (.arr [rehypeKatex])]

/-- The array `docs` of section descriptors. -/
def docs : List Obj := [
  literal [
    .prop "id" (.str "crypto"),
    .prop "path" (.str "crypto"),
    .prop "routeBasePath" (.str "/crypto")],
  literal [
    .prop "id" (.str "tool"),
    .prop "path" (.str "tool"),
    .prop "routeBasePath" (.str "/tool")],
  literal [
    .prop "id" (.str "university"),
    .prop "path" (.str "university"),
    .prop "routeBasePath" (.str "/university")],
  literal [
    .prop "id" (.str "token"),
    .prop "path" (.str "token"),
    .prop "routeBasePath" (.str "/token")]]

/-- The function `create_doc_plugin({ sidebarPath = require.resolve(...), ...options })`.
The parameter pattern reads `sidebarPath` from the argument, replaces it by the
default when it reads as `undefined`, and binds `options` to the argument's other
properties.  The argument is an object, as the JSDoc type of the parameter says. -/
def create_doc_plugin (host : Host) (arg : Obj) : Value :=
  let sidebarPath :=
    match arg.read "sidebarPath" with
    | .undefined => .str (host.resolve "./sidebars-default.js")
    | v => v
  let options := restOf arg ["sidebarPath"]
  .arr [
    .str "@docusaurus/plugin-content-docs",
    .obj (literal [
      .spread (defaultSettings host),
      .prop "sidebarPath" sidebarPath,
      .spread options])]

/-- The expression `ds.map((doc) => create_doc_plugin(doc))`, for any array `ds`
of descriptors. -/
def map_create_doc_plugin (host : Host) (ds : List Obj) : List Value :=
  ds.map (fun doc => create_doc_plugin host doc)

/-- The array `docs_plugins`. -/
def docs_plugins (host : Host) : List Value :=
  map_create_doc_plugin host docs

/-- The settings object of a plugin entry `[name, settings]`. -/
def settingsOf (plugin : Value) : Obj :=
  (plugin.item 1).fields

/-- The expression `[...docs_plugins, 'plugin-image-zoom']` of `config.plugins`, as
a function of the list spread into it. -/
def pluginsWith (plugins : List Value) : List Value :=
  plugins ++ [.str "plugin-image-zoom"]

/-- The array `themeConfig.navbar.items`. -/
def navbar_items : List Value := [
  .obj (literal [
    .prop "to" (.str "/crypto"),
    .prop "label" (.str "Crypto"),
    .prop "sidebarId" (.str "cryptoSidebar"),
    .prop "position" (.str "left")]),
  .obj (literal [
    .prop "type" (.str "docSidebar"),
    .prop "sidebarId" (.str "tutorialSidebar"),
    .prop "position" (.str "right"),
    .prop "label" (.str "Tutorial")]),
  .obj (literal [
    .prop "to" (.str "/university"),
    .prop "label" (.str "University"),
    .prop "sidebarId" (.str "universitySidebar"),
    .prop "position" (.str "right")]),
  .obj (literal [
    .prop "label" (.str "Tool"),
    .prop "to" (.str "/tool"),
    .prop "sidebarId" (.str "toolSidebar")]),
  .obj (literal [
    .prop "label" (.str "Blog"),
    .prop "to" (.str "/blog")]),
  .obj (literal [
    .prop "label" (.str "Token"),
    .prop "to" (.str "/token"),
    .prop "sidebarId" (.str "tokenSidebar")]),
  .obj (literal [
    .prop "label" (.str "docusaurus"),
    .prop "to" (.str "https://docusaurus.io/"),
    .prop "position" (.str "right")]),
  .obj (literal [
    .prop "type" (.str "dropdown"),
    .prop "label" (.str "Community"),
    .prop "position" (.str "right"),
    .prop "items" (.arr [
      .obj (literal [
        .prop "label" (.str "Facebook"),
        .prop "href" (.str "https://www.facebook.com")]),
      .obj (literal [
        .prop "type" (.str "doc"),
        .prop "label" (.str "Intro"),
        .prop "docId" (.str "intro")])])]),
  .obj (literal [
    .prop "type" (.str "search"),
    .prop "position" (.str "right")])]

/-- The object `themeConfig.footer`. -/
def footer (host : Host) : Obj :=
  literal [
    .prop "style" (.str "dark"),
    .prop "links" (.arr [
      .obj (literal [
        .prop "title" (.str "Docs"),
        .prop "items" (.arr [
          .obj (literal [
            .prop "label" (.str "Tutorial"),
            .prop "to" (.str "/docs/intro")])])]),
      .obj (literal [
        .prop "title" (.str "Community")]),
      .obj (literal [
        .prop "title" (.str "More"),
        .prop "items" (.arr [
          .obj (literal [
            .prop "label" (.str "Blog"),
            .prop "to" (.str "/blog")]),
          .obj (literal [
            .prop "label" (.str "GitHub"),
            .prop "href" (.str "https://github.com/facebook/docusaurus")])])])]),
    .prop "copyright"
      (.str ("Copyright Â© " ++ toString host.fullYear
        ++ " My Project, Inc. Built with Docusaurus."))]

/-- The object `config`, the module's default export. -/
def config (host : Host) : Obj :=
  literal [
    .prop "title" (.str "My Site"),
    .prop "tagline" (.str "Dinosaurs are cool"),
    .prop "favicon" (.str "img/favicon.ico"),
    .prop "url" (.str "https://your-docusaurus-site.example.com"),
    .prop "baseUrl" (.str "/"),
    .prop "organizationName" (.str "facebook"),
    .prop "projectName" (.str "docusaurus"),
    .prop "onBrokenLinks" (.str "throw"),
    .prop "onBrokenMarkdownLinks" (.str "warn"),
    .prop "i18n" (.obj (literal [
      .prop "defaultLocale" (.str "en"),
      .prop "locales" (.arr [.str "en"])])),
    .prop "plugins" (.arr (pluginsWith (docs_plugins host))),
    .prop "markdown" (.obj (literal [.prop "mermaid" (.bool true)])),
    .prop "themes" (.arr [.str "@docusaurus/theme-mermaid"]),
    .prop "presets" (.arr [
      .arr [
        .str "classic",
        .obj (literal [
          .prop "docs" (.obj (literal [.spread (defaultSettings host)])),
          .prop "blog" (.obj (literal [
            .prop "showReadingTime" (.bool true),
            .prop "editUrl" (.str
              "https://github.com/facebook/docusaurus/tree/main/packages/create-docusaurus/templates/shared/")])),
          .prop "theme" (.obj (literal [
            .prop "customCss" (.str "./src/css/custom.css")]))])]]),
    .prop "stylesheets" (.arr [
      .obj (literal [
        .prop "href" (.str "https://cdn.jsdelivr.net/npm/katex@0.13.24/dist/katex.min.css"),
        .prop "type" (.str "text/css"),
        .prop "integrity" (.str
          "sha384-odtC+0UGzzFL/6PNoE8rX/SPcQDXBJ+uRepguP4QkPCm2LBxH3FA3y+fKSiJ+AmM"),
        .prop "crossorigin" (.str "anonymous")])]),
    .prop "themeConfig" (.obj (literal [
      .prop "image" (.str "img/docusaurus-social-card.jpg"),
      .prop "docs" (.obj (literal [
        .prop "sidebar" (.obj (literal [
          .prop "autoCollapseCategories" (.bool true),
          .prop "hideable" (.bool true)]))])),
      .prop "navbar" (.obj (literal [
        .prop "title" (.str "My Site"),
        .prop "logo" (.obj (literal [
          .prop "alt" (.str "My Site Logo"),
          .prop "src" (.str "img/logo.webp")])),
        .prop "items" (.arr navbar_items)])),
      .prop "footer" (.obj (footer host)),
      .prop "prism" (.obj (literal [
        .prop "theme" (prismThemes "github"),
        .prop "darkTheme" (prismThemes "dracula"),
        .prop "additionalLanguages" (.arr [.str "solidity"])])),
      .prop "imageZoom" (.obj (literal [
        .prop "selector" (.str ".markdown img"),
        .prop "options" (.obj (literal [
          .prop "background" (.str "rgba(0,0,0,0.9)")]))]))]))]

/-- Member access `v.k` on a value: the property of an object value, `undefined`
on the other values of this model. -/
def Value.dot (v : Value) (k : String) : Value :=
  v.fields.read k

/-- The path `config.themeConfig.navbar.items`, read off the exported object. -/
def themeConfig_navbar_items (host : Host) : List Value :=
  ((((config host).read "themeConfig").dot "navbar").dot "items").items

/-- The path `config.presets[0][1].docs`, read off the exported object. -/
def preset_docs (host : Host) : Obj :=
  ((((config host).read "presets").item 0).item 1).dot "docs" |>.fields

/-- The path `config.plugins`, read off the exported object. -/
def config_plugins (host : Host) : List Value :=
  ((config host).read "plugins").items

/-- The items of a navigation list together with the nested `items` of each of
them (the entries of a dropdown). -/
def withNested (items : List Value) : List Value :=
  items ++ (items.map (fun it => (it.dot "items").items)).flatten

/-! ## src/components/Highlight/index.js -/

/-- A React element as `<tag ...props>{children}</tag>` creates it: the tag and the
props object, which holds the children under `children`. -/
structure Element where
  type : String
  props : Obj

/-- The component `Highlight = ({ children, color }) => <span style=...>{children}</span>`.
The parameter pattern reads `children` and `color` from the props object. -/
def Highlight (props : Obj) : Element :=
  let children := props.read "children"
  let color := props.read "color"
  { type := "span"
    props := literal [
      .prop "style" (.obj (literal [
        .prop "backgroundColor" color,
        .prop "borderRadius" (.str "2px"),
        .prop "padding" (.str "0.2rem 0.2rem 0.32rem 0.2rem"),
        .prop "marginTop" (.str "0.2rem")])),
      .prop "children" children] }

/-! ## Link targets -/

/-- Whether a link target is an absolute URL with a web scheme (`http://`,
`https://`): the targets that lead out of the site. -/
def isAbsoluteUrl (target : String) : Bool :=
  "http://".data.isPrefixOf target.data || "https://".data.isPrefixOf target.data

/-- The internal `to` targets of a list of navigation items: the string `to` values
that are not absolute URLs, in order. -/
def internalTargets (items : List Value) : List String :=
  items.filterMap (fun it =>
    match it.dot "to" with
    | .str t => if isAbsoluteUrl t then none else some t
    | _ => none)

/-- The doc ids that a list of navigation items names under `docId`, in order. -/
def namedDocIds (items : List Value) : List String :=
  items.filterMap (fun it =>
    match it.dot "docId" with
    | .str t => some t
    | _ => none)

/-- A sample host: modules resolve under `/site/`, loaded in 2024. -/
def sampleHost : Host :=
  { resolve := fun request => "/site/" ++ request, fullYear := 2024 }

/-! ## Lemmas on objects -/

theorem Obj.get_set (o : Obj) (k k' : String) (v : Value) :
    (o.set k v).get k' = if k = k' then some v else o.get k' := by
  induction o with
  | nil => simp [Obj.set, Obj.get]
  | cons p rest ih =>
    obtain ⟨a, b⟩ := p
    by_cases h : a = k
    · subst h
      by_cases h' : a = k' <;> simp [Obj.set, Obj.get, h']
    · by_cases h' : a = k'
      · subst h'
        have hk : ¬ k = a := fun e => h e.symm
        simp [Obj.set, Obj.get, h, hk]
      · simp [Obj.set, Obj.get, h, h', ih]

theorem Obj.get_eq_none_iff (o : Obj) (k : String) :
    o.get k = none ↔ k ∉ o.keys := by
  induction o with
  | nil => simp [Obj.get, Obj.keys]
  | cons p rest ih =>
    obtain ⟨a, b⟩ := p
    by_cases h : a = k
    · simp [Obj.get, Obj.keys, h]
    · have hk : ¬ k = a := fun e => h e.symm
      simpa [Obj.get, Obj.keys, h, hk] using ih

theorem Obj.keys_set (o : Obj) (k : String) (v : Value) :
    (o.set k v).keys = if k ∈ o.keys then o.keys else o.keys ++ [k] := by
  induction o with
  | nil => simp [Obj.set, Obj.keys]
  | cons p rest ih =>
    obtain ⟨a, b⟩ := p
    by_cases h : a = k
    · simp [Obj.set, Obj.keys, h]
    · have hk : ¬ k = a := fun e => h e.symm
      simp only [Obj.keys] at ih
      by_cases hm : k ∈ List.map Prod.fst rest <;>
        simp [Obj.set, Obj.keys, h, hk, hm, ih]

theorem get_foldl_set (f : String → Value) (ks : List String) (t : Obj) (k : String) :
    (ks.foldl (fun acc x => acc.set x (f x)) t).get k
      = if k ∈ ks then some (f k) else t.get k := by
  induction ks generalizing t with
  | nil => simp
  | cons x xs ih =>
    rw [List.foldl_cons, ih, Obj.get_set]
    by_cases hx : x = k
    · subst hx; simp
    · have hk : ¬ k = x := fun e => hx e.symm
      simp [hx, hk]

/-- What a copy defines: the source's value at every source key that is not
excluded, the target's value elsewhere. -/
theorem get_copyDataProperties (t s : Obj) (ex : List String) (k : String) :
    (copyDataProperties t s ex).get k
      = if k ∈ ex then t.get k else
          match s.get k with
          | some v => some v
          | none => t.get k := by
  unfold copyDataProperties
  rw [get_foldl_set]
  by_cases hex : k ∈ ex
  · simp [hex]
  · cases hs : s.get k with
    | none =>
      have := (Obj.get_eq_none_iff s k).1 hs
      simp [hex, this]
    | some v =>
      have hm : k ∈ s.keys := by
        by_contra hn
        rw [(Obj.get_eq_none_iff s k).2 hn] at hs
        exact Option.noConfusion hs
      simp [hex, hm, Obj.read, hs]

/-- The settings object that `create_doc_plugin` builds, key by key. -/
theorem settingsOf_create_doc_plugin_get (host : Host) (arg : Obj) (k : String) :
    (settingsOf (create_doc_plugin host arg)).get k
      = if k = "sidebarPath" then
          some (match arg.read "sidebarPath" with
            | .undefined => .str (host.resolve "./sidebars-default.js")
            | v => v)
        else
          match arg.get k with
          | some v => some v
          | none => (defaultSettings host).get k := by
  unfold create_doc_plugin
  generalize defaultSettings host = D
  simp only [settingsOf, create_doc_plugin, Value.item, Value.items, Value.fields, literal,
    restOf, List.foldl_cons, List.foldl_nil, List.getD_cons_succ, List.getD_cons_zero]
  rw [get_copyDataProperties, get_copyDataProperties, Obj.get_set, get_copyDataProperties]
  by_cases hk : k = "sidebarPath"
  · subst hk
    simp [Obj.get]
  · have hk' : ¬ "sidebarPath" = k := fun e => hk e.symm
    simp only [List.not_mem_nil, if_false, hk, hk', List.mem_singleton, Obj.get]
    cases arg.get k with
    | some v => rfl
    | none => cases D.get k <;> rfl

/-- A key other than `sidebarPath` reads, in the settings, as the argument has it
when the argument defines it, and as `defaultSettings` has it otherwise. -/
theorem settingsOf_read (host : Host) (arg : Obj) (k : String)
    (hk : k ≠ "sidebarPath") :
    (settingsOf (create_doc_plugin host arg)).read k
      = (arg.get k).getD ((defaultSettings host).read k) := by
  simp only [Obj.read, settingsOf_create_doc_plugin_get, hk, if_false]
  cases arg.get k <;> rfl

/-- A key that the argument does not define is, in the settings, as
`defaultSettings` has it. -/
theorem settingsOf_get_default (host : Host) (arg : Obj) (k : String)
    (ho : arg.get k = none) :
    (settingsOf (create_doc_plugin host arg)).get k = (defaultSettings host).get k := by
  rw [settingsOf_create_doc_plugin_get]
  by_cases hk : k = "sidebarPath"
  · subst hk
    simp only [if_true, Obj.read, ho, Option.getD_none]
    rfl
  · simp [hk, ho]

/-- The keys of the settings are the keys of `defaultSettings` and the keys of the
argument. -/
theorem mem_keys_settingsOf (host : Host) (arg : Obj) (k : String) :
    k ∈ (settingsOf (create_doc_plugin host arg)).keys
      ↔ k ∈ (defaultSettings host).keys ∨ k ∈ arg.keys := by
  have h1 := Obj.get_eq_none_iff (settingsOf (create_doc_plugin host arg)) k
  have h2 := Obj.get_eq_none_iff (defaultSettings host) k
  have h3 := Obj.get_eq_none_iff arg k
  rw [settingsOf_create_doc_plugin_get] at h1
  by_cases hk : k = "sidebarPath"
  · subst hk
    have hD : "sidebarPath" ∈ (defaultSettings host).keys := by
      by_contra hn
      have := h2.2 hn
      exact Option.noConfusion this
    simp only [if_true] at h1
    constructor
    · intro _; exact Or.inl hD
    · intro _
      by_contra hn
      exact Option.noConfusion (h1.2 hn)
  · simp only [hk, if_false] at h1
    cases ha : arg.get k with
    | some v =>
      have hm : k ∈ arg.keys := by
        by_contra hn
        rw [h3.2 hn] at ha
        exact Option.noConfusion ha
      rw [ha] at h1
      constructor
      · intro _; exact Or.inr hm
      · intro _
        by_contra hn
        exact Option.noConfusion (h1.2 hn)
    | none =>
      rw [ha] at h1
      have h1' : (defaultSettings host).get k = none
          ↔ k ∉ (settingsOf (create_doc_plugin host arg)).keys := h1
      have hn3 : k ∉ arg.keys := h3.1 ha
      constructor
      · intro hm
        left
        by_contra hn
        exact (h1'.1 (h2.2 hn)) hm
      · intro hm
        rcases hm with hm | hm
        · by_contra hn
          exact (h2.1 (h1'.2 hn)) hm
        · exact absurd hm hn3

/-- Membership in `docs`, spelled out. -/
theorem mem_docs (d : Obj) (hd : d ∈ docs) :
    d = literal [.prop "id" (.str "crypto"), .prop "path" (.str "crypto"),
          .prop "routeBasePath" (.str "/crypto")]
    ∨ d = literal [.prop "id" (.str "tool"), .prop "path" (.str "tool"),
          .prop "routeBasePath" (.str "/tool")]
    ∨ d = literal [.prop "id" (.str "university"), .prop "path" (.str "university"),
          .prop "routeBasePath" (.str "/university")]
    ∨ d = literal [.prop "id" (.str "token"), .prop "path" (.str "token"),
          .prop "routeBasePath" (.str "/token")] := by
  simpa only [docs, List.mem_cons, List.mem_singleton, List.not_mem_nil, or_false] using hd

/-- Every section descriptor in `docs` has the keys `id`, `path`, `routeBasePath`. -/
theorem docs_keys (d : Obj) (hd : d ∈ docs) : d.keys = ["id", "path", "routeBasePath"] := by
  rcases mem_docs d hd with h | h | h | h <;> subst h <;> rfl

/-- The elements of `docs_plugins` are the plugins made from the elements of `docs`. -/
theorem mem_docs_plugins (host : Host) (p : Value) (hp : p ∈ docs_plugins host) :
    ∃ d ∈ docs, p = create_doc_plugin host d := by
  simp only [docs_plugins, map_create_doc_plugin, List.mem_map] at hp
  obtain ⟨d, hd, rfl⟩ := hp
  exact ⟨d, hd, rfl⟩

/-! ## create_doc_plugin: overrides -/

/-- An options object with two overrides of shared defaults and an explicit
sidebar. -/
def sampleOptions : Obj :=
  literal [
    .prop "id" (.str "wallet"),
    .prop "remarkPlugins" (.arr [npm2yarn]),
    .prop "editUrl" (.str "https://example.org/edit/"),
    .prop "sidebarPath" (.str "./sidebars-wallet.js")]

/-- C1, as stated, fails: the options object `{ sidebarPath: undefined }` defines the
key `sidebarPath` with the value `undefined`, and the settings that
`create_doc_plugin` returns for it map `sidebarPath` to the resolved default file,
the value that `defaultSettings` has, not to the value of the options. -/
theorem create_doc_plugin_undefined_sidebarPath_replaced :
    (literal [.prop "sidebarPath" .undefined]).get "sidebarPath" = some .undefined
    ∧ (settingsOf (create_doc_plugin sampleHost
          (literal [.prop "sidebarPath" .undefined]))).get "sidebarPath"
        = some (.str "/site/./sidebars-default.js")
    ∧ (settingsOf (create_doc_plugin sampleHost
          (literal [.prop "sidebarPath" .undefined]))).get "sidebarPath"
        = (defaultSettings sampleHost).get "sidebarPath"
    ∧ (settingsOf (create_doc_plugin sampleHost
          (literal [.prop "sidebarPath" .undefined]))).get "sidebarPath"
        ≠ (literal [.prop "sidebarPath" .undefined]).get "sidebarPath" := by
  refine ⟨rfl, rfl, rfl, ?_⟩
  intro h
  have h' : some (Value.str "/site/./sidebars-default.js") = some Value.undefined := h
  cases h'

/-- C1, amended: for every options object and every key `k` that it defines with a
value `v`, where `v` is not `undefined` in case `k` is `sidebarPath`, the settings
object in the second component of the pair that `create_doc_plugin` returns maps
`k` to `v`, whatever `defaultSettings` has at `k`. -/
theorem create_doc_plugin_override_wins (host : Host) (options : Obj) (k : String)
    (v : Value) (hdef : options.get k = some v)
    (hsb : k = "sidebarPath" → v ≠ .undefined) :
    (settingsOf (create_doc_plugin host options)).get k = some v := by
  rw [settingsOf_create_doc_plugin_get]
  by_cases hk : k = "sidebarPath"
  · subst hk
    have hv := hsb rfl
    simp only [if_true, Obj.read, hdef, Option.getD_some]
  · simp [hk, hdef]

/-- The amended C1 at `sampleOptions`, for a key that `defaultSettings` defines too. -/
theorem create_doc_plugin_override_wins_witness :
    sampleOptions.get "remarkPlugins" = some (.arr [npm2yarn])
    ∧ (defaultSettings sampleHost).get "remarkPlugins" = some (.arr [remarkMath])
    ∧ (settingsOf (create_doc_plugin sampleHost sampleOptions)).get "remarkPlugins"
        = some (.arr [npm2yarn]) :=
  ⟨rfl, rfl,
    create_doc_plugin_override_wins sampleHost sampleOptions "remarkPlugins"
      (.arr [npm2yarn]) rfl (fun h => absurd h (by decide))⟩

/-- C5: the remark-plugin list of the shared defaults is replaced, not merged:
`defaultSettings.remarkPlugins` is the one-element list `[remarkMath]`, the key
occurs once and the earlier npm2yarn entry of the literal is not in the list; the
settings of each of the four generated sections and the `docs` of the preset carry
`[remarkMath]`; and for every options object that defines `remarkPlugins` as a list
`L`, the settings of `create_doc_plugin` carry `L` itself. -/
theorem remarkPlugins_replaced_not_merged (host : Host) (options : Obj)
    (L : List Value) (hL : options.get "remarkPlugins" = some (.arr L)) :
    (defaultSettings host).get "remarkPlugins" = some (.arr [remarkMath])
    ∧ (defaultSettings host).keys.count "remarkPlugins" = 1
    ∧ Value.arr [npm2yarn, .obj (literal [.prop "sync" (.bool true)])] ∉ [remarkMath]
    ∧ (docs_plugins host).length = 4
    ∧ (∀ p ∈ docs_plugins host,
        (settingsOf p).get "remarkPlugins" = some (.arr [remarkMath]))
    ∧ (preset_docs host).get "remarkPlugins" = some (.arr [remarkMath])
    ∧ (settingsOf (create_doc_plugin host options)).get "remarkPlugins"
        = some (.arr L) := by
  refine ⟨rfl, rfl, ?_, rfl, ?_, rfl, ?_⟩
  · intro h
    rw [List.mem_singleton] at h
    exact Value.noConfusion h
  · intro p hp
    obtain ⟨d, hd, rfl⟩ := mem_docs_plugins host p hp
    have hnone : d.get "remarkPlugins" = none := by
      rw [Obj.get_eq_none_iff, docs_keys d hd]
      decide
    rw [settingsOf_get_default host d _ hnone]
    rfl
  · rw [settingsOf_create_doc_plugin_get]
    have hne : ¬ "remarkPlugins" = "sidebarPath" := by decide
    simp only [hne, if_false, hL]

/-- C5 at `sampleOptions`, whose `remarkPlugins` is `[npm2yarn]`. -/
theorem remarkPlugins_replaced_not_merged_witness :
    (settingsOf (create_doc_plugin sampleHost sampleOptions)).get "remarkPlugins"
      = some (.arr [npm2yarn]) :=
  (remarkPlugins_replaced_not_merged sampleHost sampleOptions [npm2yarn] rfl).2.2.2.2.2.2

/-! ## create_doc_plugin: what is left at the default -/

/-- C10: `create_doc_plugin` leaves every setting it is not asked to override at its
shared default: a key of `defaultSettings` that the options do not define is mapped
to the value `defaultSettings` has; when the options do not define `sidebarPath`, or
define it as `undefined`, the returned `sidebarPath` is the resolved
`./sidebars-default.js`; so each of the four generated sections has `breadcrumbs`,
`showLastUpdateTime` and `sidebarCollapsible` true, the default `editUrl` and the
default `sidebarPath`, and its keys are the keys of `defaultSettings` together with
`id`, `path` and `routeBasePath`. -/
theorem create_doc_plugin_keeps_defaults (host : Host) (options : Obj) (k : String)
    (v : Value) (hk : (defaultSettings host).get k = some v)
    (ho : options.get k = none) :
    (settingsOf (create_doc_plugin host options)).get k = some v
    ∧ (∀ arg : Obj,
        arg.get "sidebarPath" = none ∨ arg.get "sidebarPath" = some .undefined →
        (settingsOf (create_doc_plugin host arg)).get "sidebarPath"
          = some (.str (host.resolve "./sidebars-default.js")))
    ∧ (docs_plugins host).length = 4
    ∧ (∀ p ∈ docs_plugins host,
        (settingsOf p).get "breadcrumbs" = some (.bool true)
        ∧ (settingsOf p).get "showLastUpdateTime" = some (.bool true)
        ∧ (settingsOf p).get "sidebarCollapsible" = some (.bool true)
        ∧ (settingsOf p).get "editUrl"
            = some (.str "https://github.com/dyte-io/docs/tree/main/")
        ∧ (settingsOf p).get "sidebarPath"
            = some (.str (host.resolve "./sidebars-default.js"))
        ∧ ∀ key : String, key ∈ (settingsOf p).keys
            ↔ key ∈ (defaultSettings host).keys
              ∨ key = "id" ∨ key = "path" ∨ key = "routeBasePath") := by
  refine ⟨?_, ?_, rfl, ?_⟩
  · rw [settingsOf_get_default host options k ho, hk]
  · intro arg harg
    rw [settingsOf_create_doc_plugin_get]
    rcases harg with h | h <;> simp [Obj.read, h]
  · intro p hp
    obtain ⟨d, hd, rfl⟩ := mem_docs_plugins host p hp
    have hkeys := docs_keys d hd
    have hnone : ∀ key : String, key ∉ ["id", "path", "routeBasePath"] →
        d.get key = none := by
      intro key hkey
      rw [Obj.get_eq_none_iff, hkeys]
      exact hkey
    refine ⟨?_, ?_, ?_, ?_, ?_, ?_⟩
    · rw [settingsOf_get_default host d _ (hnone _ (by decide))]; rfl
    · rw [settingsOf_get_default host d _ (hnone _ (by decide))]; rfl
    · rw [settingsOf_get_default host d _ (hnone _ (by decide))]; rfl
    · rw [settingsOf_get_default host d _ (hnone _ (by decide))]; rfl
    · rw [settingsOf_get_default host d _ (hnone _ (by decide))]; rfl
    · intro key
      rw [mem_keys_settingsOf, hkeys]
      simp only [List.mem_cons, List.mem_singleton, List.not_mem_nil, or_false]

/-- C10 at the options `{ id: 'wallet' }` and the key `breadcrumbs`. -/
theorem create_doc_plugin_keeps_defaults_witness :
    (settingsOf (create_doc_plugin sampleHost
        (literal [.prop "id" (.str "wallet")]))).get "breadcrumbs"
      = some (.bool true) :=
  (create_doc_plugin_keeps_defaults sampleHost (literal [.prop "id" (.str "wallet")])
    "breadcrumbs" (.bool true) rfl rfl).1

/-! ## Sections: identifiers and routes -/

/-- C2: across the section descriptors in `docs`, and across the settings objects of
`docs_plugins` made from them, the `id` values are pairwise distinct and the
`routeBasePath` values are pairwise distinct: any two entries at different
positions differ in both; the settings objects carry the `id` and the
`routeBasePath` of the descriptors they are made from, position by position. -/
theorem docs_id_routeBasePath_pairwise_distinct (host : Host) :
    docs.Pairwise (fun a b =>
        a.read "id" ≠ b.read "id" ∧ a.read "routeBasePath" ≠ b.read "routeBasePath")
    ∧ (docs_plugins host).Pairwise (fun p q =>
        (settingsOf p).read "id" ≠ (settingsOf q).read "id"
        ∧ (settingsOf p).read "routeBasePath" ≠ (settingsOf q).read "routeBasePath")
    ∧ (docs_plugins host).map (fun p => (settingsOf p).read "id")
        = docs.map (fun d => d.read "id")
    ∧ (docs_plugins host).map (fun p => (settingsOf p).read "routeBasePath")
        = docs.map (fun d => d.read "routeBasePath") := by
  have hid : docs.map (fun d => d.read "id")
      = [.str "crypto", .str "tool", .str "university", .str "token"] := rfl
  have hroute : docs.map (fun d => d.read "routeBasePath")
      = [.str "/crypto", .str "/tool", .str "/university", .str "/token"] := rfl
  have hpid : (docs_plugins host).map (fun p => (settingsOf p).read "id")
      = [.str "crypto", .str "tool", .str "university", .str "token"] := by
    simp only [docs_plugins, map_create_doc_plugin, docs, List.map,
      settingsOf_read host _ "id" (by decide)]
    rfl
  have hproute : (docs_plugins host).map (fun p => (settingsOf p).read "routeBasePath")
      = [.str "/crypto", .str "/tool", .str "/university", .str "/token"] := by
    simp only [docs_plugins, map_create_doc_plugin, docs, List.map,
      settingsOf_read host _ "routeBasePath" (by decide)]
    rfl
  have hne₁ : List.Pairwise (fun a b : Value => a ≠ b)
      [.str "crypto", .str "tool", .str "university", .str "token"] := by
    simp
  have hne₂ : List.Pairwise (fun a b : Value => a ≠ b)
      [.str "/crypto", .str "/tool", .str "/university", .str "/token"] := by
    simp
  refine ⟨?_, ?_, ?_, ?_⟩
  · rw [List.pairwise_and_iff]
    constructor
    · rw [← hid] at hne₁
      exact List.pairwise_map.1 hne₁
    · rw [← hroute] at hne₂
      exact List.pairwise_map.1 hne₂
  · rw [List.pairwise_and_iff]
    constructor
    · rw [← hpid] at hne₁
      exact List.pairwise_map.1 hne₁
    · rw [← hproute] at hne₂
      exact List.pairwise_map.1 hne₂
  · exact hpid.trans hid.symm
  · exact hproute.trans hroute.symm

/-! ## Broken links -/

/-- C9: the configuration makes broken links fatal and broken markdown links
warn-only: `config.onBrokenLinks` is `'throw'` and `config.onBrokenMarkdownLinks`
is `'warn'`. -/
theorem config_onBrokenLinks_throw_markdown_warn (host : Host) :
    (config host).get "onBrokenLinks" = some (.str "throw")
    ∧ (config host).get "onBrokenMarkdownLinks" = some (.str "warn") :=
  ⟨rfl, rfl⟩

/-! ## Navigation -/

/-- The exported `themeConfig.navbar.items` is the array written in the source. -/
theorem themeConfig_navbar_items_eq (host : Host) :
    themeConfig_navbar_items host = navbar_items := rfl

/-- The internal `to` targets of the navbar, nested items included. -/
theorem internalTargets_navbar :
    internalTargets (withNested navbar_items)
      = ["/crypto", "/university", "/tool", "/blog", "/token"] := by
  decide

/-- C3, as stated, fails: the navbar item labelled `Blog` has the `to` value `/blog`,
which is not an absolute URL, is the `routeBasePath` of no section descriptor in
`docs`, and is none of the doc ids that the navigation names (`intro` is the only
one). -/
theorem navbar_blog_target_is_no_section_route :
    Value.obj (literal [.prop "label" (.str "Blog"), .prop "to" (.str "/blog")])
        ∈ withNested (themeConfig_navbar_items sampleHost)
    ∧ "/blog" ∈ internalTargets (withNested (themeConfig_navbar_items sampleHost))
    ∧ isAbsoluteUrl "/blog" = false
    ∧ (∀ d ∈ docs, d.read "routeBasePath" ≠ .str "/blog")
    ∧ namedDocIds (withNested (themeConfig_navbar_items sampleHost)) = ["intro"]
    ∧ "/blog" ∉ namedDocIds (withNested (themeConfig_navbar_items sampleHost)) := by
  rw [themeConfig_navbar_items_eq]
  have hids : namedDocIds (withNested navbar_items) = ["intro"] := by decide
  refine ⟨?_, ?_, by decide, ?_, hids, ?_⟩
  · unfold withNested
    refine List.mem_append_left _ ?_
    exact .tail _ (.tail _ (.tail _ (.tail _ (.head _))))
  · rw [internalTargets_navbar]
    decide
  · intro d hd
    rcases mem_docs d hd with h | h | h | h <;> subst h <;> intro e
    · have e' : Value.str "/crypto" = Value.str "/blog" := e
      exact absurd (Value.str.inj e') (by decide)
    · have e' : Value.str "/tool" = Value.str "/blog" := e
      exact absurd (Value.str.inj e') (by decide)
    · have e' : Value.str "/university" = Value.str "/blog" := e
      exact absurd (Value.str.inj e') (by decide)
    · have e' : Value.str "/token" = Value.str "/blog" := e
      exact absurd (Value.str.inj e') (by decide)
  · rw [hids]
    decide

/-- The doc ids that the navbar names, nested items included. -/
theorem namedDocIds_navbar : namedDocIds (withNested navbar_items) = ["intro"] := by
  decide

/-- The navbar items with the nested items of the dropdown after them. -/
theorem withNested_navbar_items :
    withNested navbar_items
      = navbar_items ++ [
          .obj (literal [
            .prop "label" (.str "Facebook"),
            .prop "href" (.str "https://www.facebook.com")]),
          .obj (literal [
            .prop "type" (.str "doc"),
            .prop "label" (.str "Intro"),
            .prop "docId" (.str "intro")])] := rfl

/-- C3, amended: for every item of `themeConfig.navbar.items`, nested dropdown items
included, that has an internal target, that is a `to` value which is not an absolute
URL, or a `docId`, the target is the `routeBasePath` of some section descriptor in
`docs`, or is a known internal doc id, or is `/blog`.  The documents themselves are
not part of the configuration, so the known doc ids are a parameter, of which only
that `intro` is among them is used. -/
theorem navbar_internal_target_is_route_doc_id_or_blog (host : Host)
    (known : List String) (hintro : "intro" ∈ known) (item : Value)
    (hitem : item ∈ withNested (themeConfig_navbar_items host)) (t : String)
    (ht : (item.dot "to" = .str t ∧ isAbsoluteUrl t = false)
      ∨ item.dot "docId" = .str t) :
    (∃ d ∈ docs, d.read "routeBasePath" = .str t) ∨ t ∈ known ∨ t = "/blog" := by
  rw [themeConfig_navbar_items_eq] at hitem
  rcases ht with ⟨hto, hint⟩ | hid
  · have hm : t ∈ internalTargets (withNested navbar_items) := by
      unfold internalTargets
      refine List.mem_filterMap.2 ⟨item, hitem, ?_⟩
      simp only [hto, hint]
      rfl
    rw [internalTargets_navbar] at hm
    simp only [List.mem_cons, List.mem_singleton, List.not_mem_nil, or_false] at hm
    rcases hm with h | h | h | h | h <;> subst h
    · exact Or.inl ⟨_, .head _, rfl⟩
    · exact Or.inl ⟨_, .tail _ (.tail _ (.head _)), rfl⟩
    · exact Or.inl ⟨_, .tail _ (.head _), rfl⟩
    · exact Or.inr (Or.inr rfl)
    · exact Or.inl ⟨_, .tail _ (.tail _ (.tail _ (.head _))), rfl⟩
  · have hm : t ∈ namedDocIds (withNested navbar_items) := by
      unfold namedDocIds
      refine List.mem_filterMap.2 ⟨item, hitem, ?_⟩
      simp only [hid]
    rw [namedDocIds_navbar, List.mem_singleton] at hm
    subst hm
    exact Or.inr (Or.inl hintro)

/-- The amended C3 at the dropdown item `{ type: 'doc', label: 'Intro', docId: 'intro' }`,
with `intro` the one known doc id: its target is that doc id, and `intro` is no
`routeBasePath` of `docs` and is not `/blog`. -/
theorem navbar_internal_target_is_route_doc_id_or_blog_witness :
    Value.obj (literal [.prop "type" (.str "doc"), .prop "label" (.str "Intro"),
        .prop "docId" (.str "intro")])
      ∈ withNested (themeConfig_navbar_items sampleHost)
    ∧ ((∃ d ∈ docs, d.read "routeBasePath" = .str "intro")
        ∨ "intro" ∈ ["intro"] ∨ "intro" = "/blog") :=
  have hitem : Value.obj (literal [.prop "type" (.str "doc"),
        .prop "label" (.str "Intro"), .prop "docId" (.str "intro")])
      ∈ withNested (themeConfig_navbar_items sampleHost) := by
    rw [themeConfig_navbar_items_eq, withNested_navbar_items]
    exact List.mem_append_right _ (.tail _ (.head _))
  ⟨hitem,
    navbar_internal_target_is_route_doc_id_or_blog sampleHost ["intro"] (.head _)
      _ hitem "intro" (Or.inr rfl)⟩

/-- C6: each section is navigable: for every section descriptor `d` in `docs` there is
an item in `themeConfig.navbar.items` whose `to` is `d.routeBasePath`. -/
theorem docs_sections_navigable (host : Host) (d : Obj) (hd : d ∈ docs) :
    ∃ item ∈ themeConfig_navbar_items host, item.dot "to" = d.read "routeBasePath" := by
  rw [themeConfig_navbar_items_eq]
  rcases mem_docs d hd with h | h | h | h <;> subst h
  · exact ⟨_, .head _, rfl⟩
  · exact ⟨_, .tail _ (.tail _ (.tail _ (.head _))), rfl⟩
  · exact ⟨_, .tail _ (.tail _ (.head _)), rfl⟩
  · exact ⟨_, .tail _ (.tail _ (.tail _ (.tail _ (.tail _ (.head _))))), rfl⟩

/-- C6 at the section `tool`. -/
theorem docs_sections_navigable_witness :
    ∃ item ∈ themeConfig_navbar_items sampleHost, item.dot "to" = .str "/tool" :=
  docs_sections_navigable sampleHost
    (literal [.prop "id" (.str "tool"), .prop "path" (.str "tool"),
      .prop "routeBasePath" (.str "/tool")])
    (.tail _ (.head _))

/-! ## Section construction -/

/-- C7: section construction is total, with an empty boundary case: mapping
`create_doc_plugin` over the empty list gives the empty list, and `plugins` is then
`['plugin-image-zoom']` alone; for every list of descriptors the result has the
length of the input, holds at each position the plugin made from the descriptor at
that position, and every descriptor gives a pair of the plugin name and a settings
object.  `config.plugins` is this construction at `docs`. -/
theorem map_create_doc_plugin_total (host : Host) :
    map_create_doc_plugin host [] = []
    ∧ pluginsWith (map_create_doc_plugin host []) = [.str "plugin-image-zoom"]
    ∧ (∀ ds : List Obj, (map_create_doc_plugin host ds).length = ds.length)
    ∧ (∀ (ds : List Obj) (i : Nat),
        (map_create_doc_plugin host ds)[i]? = (ds[i]?).map (create_doc_plugin host))
    ∧ (∀ d : Obj, ∃ settings : Obj,
        create_doc_plugin host d
          = .arr [.str "@docusaurus/plugin-content-docs", .obj settings])
    ∧ config_plugins host = pluginsWith (map_create_doc_plugin host docs)
    ∧ (config_plugins host).length = docs.length + 1 := by
  refine ⟨rfl, rfl, ?_, ?_, ?_, rfl, rfl⟩
  · intro ds
    simp [map_create_doc_plugin]
  · intro ds i
    simp [map_create_doc_plugin]
  · intro d
    exact ⟨_, rfl⟩

/-! ## The Highlight component -/

/-- C4: for every color string and every children value, `Highlight({children, color})`
is a `span` element whose `style.backgroundColor` is the color, unchanged, and whose
content is the children, unchanged (more generally the two are what the props read
at `color` and `children`); for children `"x"` and color `"#ff0000"` the background
is `"#ff0000"` and the content is `"x"`. -/
theorem Highlight_passes_color_and_children (children : Value) (color : String)
    (props : Obj) :
    (Highlight (literal [.prop "children" children, .prop "color" (.str color)])).type
        = "span"
    ∧ ((Highlight (literal [.prop "children" children,
          .prop "color" (.str color)])).props.read "style").dot "backgroundColor"
        = .str color
    ∧ (Highlight (literal [.prop "children" children,
          .prop "color" (.str color)])).props.read "children" = children
    ∧ ((Highlight props).props.read "style").dot "backgroundColor" = props.read "color"
    ∧ (Highlight props).props.read "children" = props.read "children"
    ∧ ((Highlight (literal [.prop "children" (.str "x"),
          .prop "color" (.str "#ff0000")])).props.read "style").dot "backgroundColor"
        = .str "#ff0000"
    ∧ (Highlight (literal [.prop "children" (.str "x"),
          .prop "color" (.str "#ff0000")])).props.read "children" = .str "x" :=
  ⟨rfl, rfl, rfl, rfl, rfl, rfl, rfl⟩

/-- C8: the styling of `Highlight` other than the background is fixed, and the
component is a function of its two inputs: for all props the style has
`borderRadius` `'2px'`, `padding` `'0.2rem 0.2rem 0.32rem 0.2rem'`, `marginTop`
`'0.2rem'` and no field besides these and `backgroundColor`, and two props objects
with equal `children` and equal `color` give equal elements. -/
theorem Highlight_fixed_style_pure (p q : Obj)
    (hchildren : p.read "children" = q.read "children")
    (hcolor : p.read "color" = q.read "color") :
    ((Highlight p).props.read "style").fields.keys
        = ["backgroundColor", "borderRadius", "padding", "marginTop"]
    ∧ ((Highlight p).props.read "style").dot "borderRadius" = .str "2px"
    ∧ ((Highlight p).props.read "style").dot "padding"
        = .str "0.2rem 0.2rem 0.32rem 0.2rem"
    ∧ ((Highlight p).props.read "style").dot "marginTop" = .str "0.2rem"
    ∧ (Highlight p).props.keys = ["style", "children"]
    ∧ Highlight p = Highlight q := by
  refine ⟨rfl, rfl, rfl, rfl, rfl, ?_⟩
  unfold Highlight
  rw [hchildren, hcolor]

/-- C8 at two props objects that list `children` and `color` in different orders, one
of them with a further property. -/
theorem Highlight_fixed_style_pure_witness :
    Highlight (literal [.prop "children" (.str "x"), .prop "color" (.str "#ff0000")])
      = Highlight (literal [.prop "color" (.str "#ff0000"), .prop "title" (.str "t"),
          .prop "children" (.str "x")]) :=
  (Highlight_fixed_style_pure
    (literal [.prop "children" (.str "x"), .prop "color" (.str "#ff0000")])
    (literal [.prop "color" (.str "#ff0000"), .prop "title" (.str "t"),
      .prop "children" (.str "x")]) rfl rfl).2.2.2.2.2

end DocusaurusCryptoDocs
